import Mathlib

/-!
Shallow embedding of the booking-automation repository (TypeScript) in Lean 4.

The embedding follows the source file of the repository: the pure fallback
seat generators, the configuration loader `getBookingPreferences`, the
password-fill escalation of the UI login, the booking-initiation control flow
of the real-booking test, and the two OTP polling loops. JavaScript numbers
reached by `parseInt` are modelled by `JSNumber` (an integer or NaN), and the
JavaScript template-string rendering of a number is modelled by `Nat.repr`,
which is the same most-significant-digit-first decimal rendering.
-/

/-! ### Fallback seat generators -/

/-- Row alphabet of `generateGenericSeatNumbers` (source: `const rows = ['A','B','C','D','E','F']`). -/
def rows : List String := ["A", "B", "C", "D", "E", "F"]

/-- Loop body of `generateGenericSeatNumbers`: seat pushed at index `i`
(source: `rows[i % rows.length]` and `Math.floor(i / rows.length) + 1`
joined by template-string interpolation). -/
def genericSeat (i : Nat) : String :=
  rows.getD (i % rows.length) "" ++ Nat.repr (i / rows.length + 1)

/-- Embedding of `generateGenericSeatNumbers(count)`: the loop pushes
`genericSeat i` for `i = 0 .. count-1`. -/
def generateGenericSeatNumbers (count : Nat) : List String :=
  (List.range count).map genericSeat

/-- The fixed row templates of `generateCommonSeatPatterns` (source: `commonPatterns`). -/
def commonPatterns : List (List String) :=
  [["1A", "1B", "1C", "1D", "1E", "1F"],
   ["2A", "2B", "2C", "2D", "2E", "2F"],
   ["3A", "3B", "3C", "3D", "3E", "3F"],
   ["A1", "A2", "A3", "A4", "A5", "A6"],
   ["B1", "B2", "B3", "B4", "B5", "B6"],
   ["S1", "S2", "S3", "S4", "S5", "S6"]]

/-- One iteration of the `generateCommonSeatPatterns` loop at index `i` with the
current `patternIndex`: returns the pushed seat and the updated `patternIndex`.
Source: if `patternIndex < commonPatterns.length` push `pattern[i % pattern.length]`
and increment `patternIndex` when `(i + 1) % pattern.length === 0`; otherwise
push `` `S${i + 1}` `` and leave `patternIndex` unchanged. -/
def commonStep (i patternIndex : Nat) : String × Nat :=
  if h : patternIndex < commonPatterns.length then
    let pattern := commonPatterns.get ⟨patternIndex, h⟩
    (pattern.getD (i % pattern.length) "",
     if (i + 1) % pattern.length = 0 then patternIndex + 1 else patternIndex)
  else
    ("S" ++ Nat.repr (i + 1), patternIndex)

/-- The `generateCommonSeatPatterns` loop: `n` remaining iterations, current
index `i`, current `patternIndex`. -/
def commonSeatsAux : Nat → Nat → Nat → List String
  | 0, _, _ => []
  | n + 1, i, patternIndex =>
    (commonStep i patternIndex).1 :: commonSeatsAux n (i + 1) (commonStep i patternIndex).2

/-- Embedding of `generateCommonSeatPatterns(count)`: run the loop from
`i = 0`, `patternIndex = 0`, then `seats.slice(0, count)`. -/
def generateCommonSeatPatterns (count : Nat) : List String :=
  (commonSeatsAux count 0 0).take count

/-- The row alphabet exactly as claim C1 words it. -/
def claimRowAlphabet : List String := ["A", "B", "C", "D", "E", "F"]

/-- Seat identifier at position `i` exactly as claim C1 words it: the
`(i mod 6)`-th letter of A..F followed by the decimal digits of `i / 6 + 1`. -/
def claimGenericSeat (i : Nat) : String :=
  claimRowAlphabet.getD (i % 6) "" ++ Nat.repr (i / 6 + 1)

theorem genericSeat_eq_claim (i : Nat) : genericSeat i = claimGenericSeat i := rfl

/-- C1. For every `count ≥ 1` and position `i < count`, the generic fallback
generator places at `i` the seat whose row letter is the `(i mod 6)`-th letter
of A,B,C,D,E,F and whose seat number is `i / 6 + 1`; and the two concrete
examples of the claim hold. -/
theorem C1_generic_positionwise (count : Nat) (hcount : 1 ≤ count)
    (i : Nat) (hi : i < count) :
    (generateGenericSeatNumbers count)[i]? = some (claimGenericSeat i)
    ∧ generateGenericSeatNumbers 3 = ["A1", "B1", "C1"]
    ∧ generateGenericSeatNumbers 7 = ["A1", "B1", "C1", "D1", "E1", "F1", "A2"] := by
  refine ⟨?_, by decide, by decide⟩
  simp [generateGenericSeatNumbers, List.getElem?_map, List.getElem?_range, hi,
    genericSeat_eq_claim]

/-- Witness for C1 at `count = 7`, `i = 6`. -/
theorem C1_generic_positionwise_witness :
    1 ≤ 7 ∧ (6 : Nat) < 7 ∧
    ((generateGenericSeatNumbers 7)[6]? = some (claimGenericSeat 6)
      ∧ generateGenericSeatNumbers 3 = ["A1", "B1", "C1"]
      ∧ generateGenericSeatNumbers 7 = ["A1", "B1", "C1", "D1", "E1", "F1", "A2"]) :=
  ⟨by decide, by decide, C1_generic_positionwise 7 (by decide) 6 (by decide)⟩

/-! ### Decimal rendering lemmas

`Nat.repr` renders via `Nat.toDigitsCore`; the lemmas below establish that the
rendering is nonempty, consists of decimal digit characters, and is injective. -/

/-- Decimal digit character, i.e. one of 0..9 (codpoints 48..57). -/
def isDecDigit (c : Char) : Bool := 48 ≤ c.toNat && c.toNat ≤ 57

theorem digitChar_isDecDigit : ∀ m < 10, isDecDigit (Nat.digitChar m) = true := by decide

theorem toDigitsCore_digits (fuel : Nat) :
    ∀ (n : Nat) (ds : List Char), (∀ c ∈ ds, isDecDigit c = true) →
      ∀ c ∈ Nat.toDigitsCore 10 fuel n ds, isDecDigit c = true := by
  induction fuel with
  | zero => intro n ds h c hc; exact h c hc
  | succ fuel ih =>
    intro n ds h c hc
    simp only [Nat.toDigitsCore] at hc
    have hdig : isDecDigit (Nat.digitChar (n % 10)) = true :=
      digitChar_isDecDigit _ (Nat.mod_lt _ (by decide))
    by_cases hz : n / 10 = 0
    · rw [if_pos hz] at hc
      rcases List.mem_cons.mp hc with h1 | h2
      · rw [h1]; exact hdig
      · exact h c h2
    · rw [if_neg hz] at hc
      refine ih (n / 10) (Nat.digitChar (n % 10) :: ds) ?_ c hc
      intro d hd
      rcases List.mem_cons.mp hd with h1 | h2
      · rw [h1]; exact hdig
      · exact h d h2

theorem toDigitsCore_ne_nil (fuel : Nat) :
    ∀ (n : Nat) (ds : List Char), ds ≠ [] → Nat.toDigitsCore 10 fuel n ds ≠ [] := by
  induction fuel with
  | zero => intro n ds h; simpa [Nat.toDigitsCore] using h
  | succ fuel ih =>
    intro n ds h
    simp only [Nat.toDigitsCore]
    by_cases hz : n / 10 = 0
    · simp [hz]
    · rw [if_neg hz]
      exact ih (n / 10) (Nat.digitChar (n % 10) :: ds) (by simp)

theorem toDigits_ne_nil (n : Nat) : Nat.toDigits 10 n ≠ [] := by
  show Nat.toDigitsCore 10 (n + 1) n [] ≠ []
  simp only [Nat.toDigitsCore]
  by_cases hz : n / 10 = 0
  · simp [hz]
  · rw [if_neg hz]
    exact toDigitsCore_ne_nil _ (n / 10) (Nat.digitChar (n % 10) :: []) (by simp)

theorem toDigits_digits (n : Nat) : ∀ c ∈ Nat.toDigits 10 n, isDecDigit c = true :=
  toDigitsCore_digits (n + 1) n [] (by intro c hc; cases hc)

theorem toDigitsCore_append (b fuel : Nat) :
    ∀ (n : Nat) (ds : List Char),
      Nat.toDigitsCore b fuel n ds = Nat.toDigitsCore b fuel n [] ++ ds := by
  induction fuel with
  | zero => intro n ds; simp [Nat.toDigitsCore]
  | succ fuel ih =>
    intro n ds
    simp only [Nat.toDigitsCore]
    by_cases hz : n / b = 0
    · simp [hz]
    · rw [if_neg hz, if_neg hz, ih (n / b) (Nat.digitChar (n % b) :: ds),
        ih (n / b) (Nat.digitChar (n % b) :: [])]
      simp

/-- Accumulator step reading a most-significant-first decimal digit list. -/
def digitStep (a : Nat) (c : Char) : Nat := a * 10 + (c.toNat - 48)

/-- Value of a most-significant-first decimal digit list. -/
def digitsVal (cs : List Char) : Nat := cs.foldl digitStep 0

theorem digitChar_val : ∀ m < 10, (Nat.digitChar m).toNat - 48 = m := by decide

theorem toDigitsCore_foldl (f : Nat) :
    ∀ (n : Nat), n < 10 ^ (f + 1) → ∀ (a : Nat),
      (Nat.toDigitsCore 10 (f + 1) n []).foldl digitStep a
        = a * 10 ^ (Nat.toDigitsCore 10 (f + 1) n []).length + n := by
  induction f with
  | zero =>
    intro n hn a
    have h10 : n < 10 := by simpa using hn
    have hz : n / 10 = 0 := Nat.div_eq_of_lt h10
    have hm : n % 10 = n := Nat.mod_eq_of_lt h10
    simp only [Nat.toDigitsCore, hz, if_pos]
    simp [List.foldl, digitStep, hm, digitChar_val n h10]
  | succ f ih =>
    intro n hn a
    by_cases h10 : n < 10
    · have hz : n / 10 = 0 := Nat.div_eq_of_lt h10
      have hm : n % 10 = n := Nat.mod_eq_of_lt h10
      simp only [Nat.toDigitsCore, hz, if_pos]
      simp [List.foldl, digitStep, hm, digitChar_val n h10]
    · have hz : n / 10 ≠ 0 := by omega
      have hstep : Nat.toDigitsCore 10 (f + 1 + 1) n []
          = Nat.toDigitsCore 10 (f + 1) (n / 10) (Nat.digitChar (n % 10) :: []) := by
        conv_lhs => rw [Nat.toDigitsCore]
        rw [if_neg hz]
      rw [hstep]
      rw [toDigitsCore_append 10 (f + 1) (n / 10) (Nat.digitChar (n % 10) :: [])]
      have hdiv : n / 10 < 10 ^ (f + 1) := by
        rw [Nat.div_lt_iff_lt_mul (by decide : 0 < 10)]
        calc n < 10 ^ (f + 1 + 1) := hn
        _ = 10 ^ (f + 1) * 10 := by rw [pow_succ]
      rw [List.foldl_append, ih (n / 10) hdiv a]
      have hmod : (Nat.digitChar (n % 10)).toNat - 48 = n % 10 :=
        digitChar_val _ (Nat.mod_lt _ (by decide))
      simp only [List.foldl, digitStep, List.length_append, List.length_cons,
        List.length_nil, hmod]
      calc (a * 10 ^ (Nat.toDigitsCore 10 (f + 1) (n / 10) []).length + n / 10) * 10 + n % 10
          = a * (10 ^ (Nat.toDigitsCore 10 (f + 1) (n / 10) []).length * 10)
            + (10 * (n / 10) + n % 10) := by ring
        _ = a * 10 ^ ((Nat.toDigitsCore 10 (f + 1) (n / 10) []).length + 0 + 1) + n := by
            rw [Nat.div_add_mod, ← pow_succ]

theorem digitsVal_toDigits (n : Nat) : digitsVal (Nat.toDigits 10 n) = n := by
  have h : n < 10 ^ (n + 1) := by
    calc n < 10 ^ n := Nat.lt_pow_self (by decide) n
    _ ≤ 10 ^ (n + 1) := Nat.pow_le_pow_right (by decide) (Nat.le_succ n)
  show (Nat.toDigitsCore 10 (n + 1) n []).foldl digitStep 0 = n
  rw [toDigitsCore_foldl n n h 0]
  simp

theorem toDigits_ten_inj {m n : Nat} (h : Nat.toDigits 10 m = Nat.toDigits 10 n) : m = n := by
  have h2 := congrArg digitsVal h
  rwa [digitsVal_toDigits, digitsVal_toDigits] at h2

/-! ### Claim C3: shape of the generic seat identifiers -/

theorem string_data_append (s t : String) : (s ++ t).data = s.data ++ t.data := rfl

theorem repr_data (n : Nat) : (Nat.repr n).data = Nat.toDigits 10 n := rfl

theorem genericSeat_data (i : Nat) :
    (genericSeat i).data = (rows.getD (i % 6) "").data ++ Nat.toDigits 10 (i / 6 + 1) := by
  show ((rows.getD (i % rows.length) "") ++ Nat.repr (i / rows.length + 1)).data = _
  rw [string_data_append, repr_data]
  rfl

theorem rows_getD_len : ∀ r < 6, ((rows.getD r "").data).length = 1 := by decide

theorem rows_getD_inj : ∀ a < 6, ∀ b < 6,
    (rows.getD a "").data = (rows.getD b "").data → a = b := by decide

theorem rows_getD_alpha : ∀ r < 6,
    ((rows.getD r "").data).all (fun c => 65 ≤ c.toNat && c.toNat ≤ 70) = true := by decide

theorem genericSeat_inj : Function.Injective genericSeat := by
  intro i j h
  have hi6 : i % 6 < 6 := Nat.mod_lt _ (by decide)
  have hj6 : j % 6 < 6 := Nat.mod_lt _ (by decide)
  have hd : (genericSeat i).data = (genericSeat j).data := by rw [h]
  rw [genericSeat_data, genericSeat_data] at hd
  have hlen : ((rows.getD (i % 6) "").data).length = ((rows.getD (j % 6) "").data).length := by
    rw [rows_getD_len _ hi6, rows_getD_len _ hj6]
  obtain ⟨h1, h2⟩ := List.append_inj hd hlen
  have hmod : i % 6 = j % 6 := rows_getD_inj _ hi6 _ hj6 h1
  have hdiv : i / 6 + 1 = j / 6 + 1 := toDigits_ten_inj h2
  omega

/-- Character-list form of the pattern the claim states: a letter A..F
(codepoints 65..70) followed by one or more digits 1..9 (codepoints 49..57). -/
def seatCharsClaimed : List Char → Bool
  | [] => false
  | c :: rest =>
    (65 ≤ c.toNat && c.toNat ≤ 70) && (!rest.isEmpty && rest.all (fun d => 49 ≤ d.toNat && d.toNat ≤ 57))

/-- The seat-identifier pattern exactly as claim C3 states it: `[A-F][1-9]+`. -/
def matchesClaimedSeatPattern (s : String) : Bool := seatCharsClaimed s.data

/-- Character-list form of the amended pattern: a letter A..F followed by one
or more decimal digits 0..9. -/
def seatCharsAmended : List Char → Bool
  | [] => false
  | c :: rest => (65 ≤ c.toNat && c.toNat ≤ 70) && (!rest.isEmpty && rest.all isDecDigit)

/-- The amended seat-identifier pattern `[A-F][0-9]+` (the digit 0 may occur
from the second digit position on). -/
def matchesAmendedSeatPattern (s : String) : Bool := seatCharsAmended s.data

theorem genericSeat_matches (i : Nat) : matchesAmendedSeatPattern (genericSeat i) = true := by
  have hi6 : i % 6 < 6 := Nat.mod_lt _ (by decide)
  obtain ⟨c, hc⟩ := List.length_eq_one.mp (rows_getD_len _ hi6)
  have hcb : (65 ≤ c.toNat && c.toNat ≤ 70) = true := by
    have h := rows_getD_alpha _ hi6
    rw [hc] at h
    simpa using h
  have hdata : (genericSeat i).data = c :: Nat.toDigits 10 (i / 6 + 1) := by
    rw [genericSeat_data, hc]
    rfl
  unfold matchesAmendedSeatPattern
  rw [hdata]
  simp only [seatCharsAmended, Bool.and_eq_true, hcb, true_and]
  constructor
  · have := toDigits_ne_nil (i / 6 + 1)
    simp [List.isEmpty_iff, this]
  · rw [List.all_eq_true]
    exact toDigits_digits (i / 6 + 1)

/-- C3 counterexample: the claim requires every digit to lie in 1..9, but at
`count = 55` the seat at position 54 is `A10`, whose digit 0 violates the
stated pattern `[A-F][1-9]+`. -/
theorem C3_claimed_pattern_counterexample :
    1 ≤ 55
    ∧ (generateGenericSeatNumbers 55)[54]? = some "A10"
    ∧ matchesClaimedSeatPattern "A10" = false
    ∧ (generateGenericSeatNumbers 55).all matchesClaimedSeatPattern = false := by
  refine ⟨by decide, by decide, by decide, by decide⟩

/-- C3 amended: for every `count ≥ 1`, `generateGenericSeatNumbers count`
returns exactly `count` pairwise-distinct identifiers, each matching
`[A-F][0-9]+` (row letter A..F followed by one or more decimal digits). -/
theorem C3_generic_distinct_pattern (count : Nat) (hcount : 1 ≤ count) :
    (generateGenericSeatNumbers count).length = count
    ∧ (generateGenericSeatNumbers count).Nodup
    ∧ ∀ s ∈ generateGenericSeatNumbers count, matchesAmendedSeatPattern s = true := by
  refine ⟨by simp [generateGenericSeatNumbers], ?_, ?_⟩
  · exact (List.nodup_range count).map genericSeat_inj
  · intro s hs
    obtain ⟨i, _, rfl⟩ := List.mem_map.mp hs
    exact genericSeat_matches i

/-- Witness for the amended C3 at `count = 7`. -/
theorem C3_generic_distinct_pattern_witness :
    1 ≤ 7
    ∧ ((generateGenericSeatNumbers 7).length = 7
      ∧ (generateGenericSeatNumbers 7).Nodup
      ∧ ∀ s ∈ generateGenericSeatNumbers 7, matchesAmendedSeatPattern s = true) :=
  ⟨by decide, C3_generic_distinct_pattern 7 (by decide)⟩

/-! ### Claim C2: the common-pattern generator -/

/-- Seat the claim predicts at global position `i`: walk the 36 template seats
in order and, past them, pad with `S` followed by the counter value `i + 1`. -/
def commonSeatSpec (i : Nat) : String :=
  commonPatterns.flatten.getD i ("S" ++ Nat.repr (i + 1))

theorem commonStep_spec_lt : ∀ i < 36,
    commonStep i (min (i / 6) 6) = (commonSeatSpec i, min ((i + 1) / 6) 6) := by decide

theorem commonStep_spec_ge (i : Nat) (h : 36 ≤ i) :
    commonStep i (min (i / 6) 6) = (commonSeatSpec i, min ((i + 1) / 6) 6) := by
  have h6 : min (i / 6) 6 = 6 := by omega
  have h6' : min ((i + 1) / 6) 6 = 6 := by omega
  rw [h6, h6']
  have hlen : ¬ (6 < commonPatterns.length) := by decide
  unfold commonStep
  rw [dif_neg hlen]
  unfold commonSeatSpec
  have hflat : commonPatterns.flatten.length ≤ i := by
    have h36 : commonPatterns.flatten.length = 36 := by decide
    omega
  rw [List.getD_eq_getElem?_getD, List.getElem?_eq_none hflat]
  rfl

theorem commonSeatsAux_spec : ∀ (n i : Nat),
    commonSeatsAux n i (min (i / 6) 6) = (List.range' i n).map commonSeatSpec := by
  intro n
  induction n with
  | zero => intro i; rfl
  | succ n ih =>
    intro i
    have hstep : commonStep i (min (i / 6) 6) = (commonSeatSpec i, min ((i + 1) / 6) 6) := by
      by_cases h : i < 36
      · exact commonStep_spec_lt i h
      · exact commonStep_spec_ge i (by omega)
    show (commonStep i (min (i / 6) 6)).1
        :: commonSeatsAux n (i + 1) (commonStep i (min (i / 6) 6)).2
      = (List.range' i (n + 1)).map commonSeatSpec
    rw [hstep, List.range'_succ]
    simp only [List.map_cons]
    exact congrArg _ (ih (i + 1))

theorem generateCommonSeatPatterns_eq (count : Nat) :
    generateCommonSeatPatterns count = (List.range count).map commonSeatSpec := by
  unfold generateCommonSeatPatterns
  have h0 : commonSeatsAux count 0 0 = commonSeatsAux count 0 (min (0 / 6) 6) := rfl
  rw [h0, commonSeatsAux_spec count 0, ← List.range_eq_range']
  apply List.take_of_length_le
  simp

/-- C2. For every `count ≥ 1`, the common-pattern generator returns exactly the
first `count` seats of the walk through the six ordered 6-seat templates,
padded past position 35 with `S` plus an incrementing counter; and the two
concrete examples of the claim hold. -/
theorem C2_common_positionwise (count : Nat) (hcount : 1 ≤ count) :
    generateCommonSeatPatterns count = (List.range count).map commonSeatSpec
    ∧ (generateCommonSeatPatterns count).length = count
    ∧ generateCommonSeatPatterns 5 = ["1A", "1B", "1C", "1D", "1E"]
    ∧ generateCommonSeatPatterns 8 = ["1A", "1B", "1C", "1D", "1E", "1F", "2A", "2B"] := by
  refine ⟨generateCommonSeatPatterns_eq count, ?_, by decide, by decide⟩
  rw [generateCommonSeatPatterns_eq count]
  simp

/-- Witness for C2 at `count = 8`. -/
theorem C2_common_positionwise_witness :
    1 ≤ 8
    ∧ (generateCommonSeatPatterns 8 = (List.range 8).map commonSeatSpec
      ∧ (generateCommonSeatPatterns 8).length = 8
      ∧ generateCommonSeatPatterns 5 = ["1A", "1B", "1C", "1D", "1E"]
      ∧ generateCommonSeatPatterns 8 = ["1A", "1B", "1C", "1D", "1E", "1F", "2A", "2B"]) :=
  ⟨by decide, C2_common_positionwise 8 (by decide)⟩

/-! ### Claim C10: increasing the count only appends -/

/-- C10. For all `m ≤ n`, each generator at `m` is the `m`-element front
segment of the same generator at `n`. -/
theorem C10_take_coherent (m n : Nat) (h : m ≤ n) :
    generateGenericSeatNumbers m = (generateGenericSeatNumbers n).take m
    ∧ generateCommonSeatPatterns m = (generateCommonSeatPatterns n).take m := by
  constructor
  · unfold generateGenericSeatNumbers
    rw [← List.map_take, List.take_range, Nat.min_eq_left h]
  · rw [generateCommonSeatPatterns_eq, generateCommonSeatPatterns_eq,
      ← List.map_take, List.take_range, Nat.min_eq_left h]

/-- Witness for C10 at `m = 4`, `n = 40`. -/
theorem C10_take_coherent_witness :
    4 ≤ 40
    ∧ (generateGenericSeatNumbers 4 = (generateGenericSeatNumbers 40).take 4
      ∧ generateCommonSeatPatterns 4 = (generateCommonSeatPatterns 40).take 4) :=
  ⟨by decide, C10_take_coherent 4 40 (by decide)⟩

/-! ### Configuration loader `getBookingPreferences` -/

/-- JavaScript number as produced by `parseInt`: an integer or NaN. -/
inductive JSNumber where
  | nan : JSNumber
  | int : Int → JSNumber
deriving DecidableEq

/-- JavaScript comparison `x <= 0`: false when `x` is NaN (every comparison
with NaN is false). -/
def JSNumber.leZero : JSNumber → Bool
  | .nan => false
  | .int i => decide (i ≤ 0)

/-- Decimal digit value of a character, if it is one. -/
def digitVal? (c : Char) : Option Nat :=
  if 48 ≤ c.toNat ∧ c.toNat ≤ 57 then some (c.toNat - 48) else none

/-- Longest leading run of decimal digits. -/
def leadingDigits : List Char → List Nat
  | [] => []
  | c :: cs =>
    match digitVal? c with
    | some d => d :: leadingDigits cs
    | none => []

/-- Modelled from the JavaScript runtime builtin `parseInt` (radix unspecified)
as it behaves on the inputs this repository feeds it: skip leading whitespace,
read an optional sign, then the longest leading run of decimal digits; NaN when
that run is empty. The hexadecimal `0x` prefixed form is not modelled; no input
considered here uses it. -/
def parseInt (s : String) : JSNumber :=
  let cs := s.data.dropWhile (fun c => c == ' ' || c == '\t' || c == '\n' || c == '\r')
  let signed : Int × List Char :=
    match cs with
    | '-' :: r => (-1, r)
    | '+' :: r => (1, r)
    | r => (1, r)
  match leadingDigits signed.2 with
  | [] => JSNumber.nan
  | ds => JSNumber.int (signed.1 * (ds.foldl (fun a d => a * 10 + d) 0 : Nat))

/-- The environment variables read by `getBookingPreferences`; `none` models an
unset variable. -/
structure BookingEnv where
  TRAIN_NAME : Option String
  PREFERRED_SEATS : Option String
  NUMBER_OF_SEATS : Option String
deriving DecidableEq

/-- JavaScript truthiness of an environment variable: set and nonempty. -/
def envTruthy : Option String → Bool
  | none => false
  | some s => !(s == "")

/-- Helper for `splitComma`: `acc` holds the characters of the current field
in reverse. -/
def splitCommaAux : List Char → List Char → List String
  | [], acc => [⟨acc.reverse⟩]
  | c :: cs, acc =>
    if c == ',' then ⟨acc.reverse⟩ :: splitCommaAux cs []
    else splitCommaAux cs (c :: acc)

/-- Modelled from the JavaScript builtin `String.prototype.split` with
separator `","`: cut the string at every comma (the empty string yields
a single empty field, as in JavaScript). -/
def splitComma (s : String) : List String := splitCommaAux s.data []

/-- The preferences object built by `getBookingPreferences`. -/
structure BookingPrefs where
  trainName : Option String
  preferredSeats : List String
  numberOfSeats : JSNumber
deriving DecidableEq

def missingBookingMsg : String :=
  "Missing required booking environment variables. Please ensure TRAIN_NAME, PREFERRED_SEATS, and NUMBER_OF_SEATS are set in .env file"

def positiveSeatsMsg : String := "NUMBER_OF_SEATS must be a positive number"

/-- Embedding of `getBookingPreferences()`: build the preferences object
(`preferredSeats` from `split(',')` when the variable is truthy, else `[]`;
`numberOfSeats` from `parseInt` when truthy, else `0`), then throw the
missing-variables error when any of the three variables is falsy, then throw
the positive-number error when `numberOfSeats <= 0`, else return the object. -/
def getBookingPreferences (env : BookingEnv) : Except String BookingPrefs :=
  let bookingPrefs : BookingPrefs :=
    { trainName := env.TRAIN_NAME
      preferredSeats :=
        if envTruthy env.PREFERRED_SEATS then splitComma (env.PREFERRED_SEATS.getD "") else []
      numberOfSeats :=
        if envTruthy env.NUMBER_OF_SEATS then parseInt (env.NUMBER_OF_SEATS.getD "")
        else JSNumber.int 0 }
  if !(envTruthy bookingPrefs.trainName && envTruthy env.PREFERRED_SEATS
        && envTruthy env.NUMBER_OF_SEATS) then
    Except.error missingBookingMsg
  else if bookingPrefs.numberOfSeats.leZero then
    Except.error positiveSeatsMsg
  else
    Except.ok bookingPrefs

/-- Does `needle` match at the head of `hay`? -/
def leadsWith : List Char → List Char → Bool
  | [], _ => true
  | _ :: _, [] => false
  | a :: as, b :: bs => a == b && leadsWith as bs

/-- Does `needle` occur contiguously inside `hay`? -/
def mentionsSeg (needle : List Char) : List Char → Bool
  | [] => leadsWith needle []
  | b :: bs => leadsWith needle (b :: bs) || mentionsSeg needle bs

/-- Does the string `needle` occur inside the string `hay`? -/
def mentionsStr (needle hay : String) : Bool := mentionsSeg needle.data hay.data

/-- C4. With the other two variables truthy, `NUMBER_OF_SEATS = "0"` and
`NUMBER_OF_SEATS = "-1"` are rejected with the positive-number error; a
missing (or empty) required variable is rejected with the missing-variables
error, which differs from the positive-number error and names each of
TRAIN_NAME, PREFERRED_SEATS and NUMBER_OF_SEATS. -/
theorem C4_config_validation (tn ps : Option String)
    (htn : envTruthy tn = true) (hps : envTruthy ps = true) :
    getBookingPreferences ⟨tn, ps, some "0"⟩ = Except.error positiveSeatsMsg
    ∧ getBookingPreferences ⟨tn, ps, some "-1"⟩ = Except.error positiveSeatsMsg
    ∧ (∀ env : BookingEnv,
        (envTruthy env.TRAIN_NAME = false ∨ envTruthy env.PREFERRED_SEATS = false
          ∨ envTruthy env.NUMBER_OF_SEATS = false) →
        getBookingPreferences env = Except.error missingBookingMsg)
    ∧ missingBookingMsg ≠ positiveSeatsMsg
    ∧ mentionsStr "TRAIN_NAME" missingBookingMsg = true
    ∧ mentionsStr "PREFERRED_SEATS" missingBookingMsg = true
    ∧ mentionsStr "NUMBER_OF_SEATS" missingBookingMsg = true := by
  refine ⟨?_, ?_, ?_, by decide, by decide, by decide, by decide⟩
  · simp [getBookingPreferences, htn, hps]
    rw [if_neg (by decide), if_pos (by decide)]
  · simp [getBookingPreferences, htn, hps]
    rw [if_neg (by decide), if_pos (by decide)]
  · intro env h
    rcases env with ⟨tn', ps', ns'⟩
    rcases h with h | h | h <;> simp_all [getBookingPreferences]

/-- Witness for C4 with both other variables set to nonempty strings. -/
theorem C4_config_validation_witness :
    envTruthy (some "TestTrain") = true ∧ envTruthy (some "A1,B1") = true
    ∧ (getBookingPreferences ⟨some "TestTrain", some "A1,B1", some "0"⟩
        = Except.error positiveSeatsMsg
      ∧ getBookingPreferences ⟨some "TestTrain", some "A1,B1", some "-1"⟩
        = Except.error positiveSeatsMsg
      ∧ (∀ env : BookingEnv,
          (envTruthy env.TRAIN_NAME = false ∨ envTruthy env.PREFERRED_SEATS = false
            ∨ envTruthy env.NUMBER_OF_SEATS = false) →
          getBookingPreferences env = Except.error missingBookingMsg)
      ∧ missingBookingMsg ≠ positiveSeatsMsg
      ∧ mentionsStr "TRAIN_NAME" missingBookingMsg = true
      ∧ mentionsStr "PREFERRED_SEATS" missingBookingMsg = true
      ∧ mentionsStr "NUMBER_OF_SEATS" missingBookingMsg = true) :=
  ⟨by decide, by decide, C4_config_validation (some "TestTrain") (some "A1,B1") (by decide) (by decide)⟩

/-- C5 failing input: `NUMBER_OF_SEATS = "abc"` with the other variables set.
`parseInt("abc")` is NaN and `NaN <= 0` is false in JavaScript, so validation
passes and `getBookingPreferences` returns a preferences object with
`numberOfSeats = NaN` instead of failing with a descriptive error. -/
theorem C5_nan_escapes_validation :
    getBookingPreferences ⟨some "TestTrain", some "A1,B1", some "abc"⟩
      = Except.ok { trainName := some "TestTrain", preferredSeats := ["A1", "B1"],
                    numberOfSeats := JSNumber.nan } := by
  rfl

/-! ### Claim C9: the generators are total at count 0 -/

/-- C9. Both fallback generators return the empty list at `count = 0`, while
the caller-side validation in `getBookingPreferences` rejects a seat count of
zero before any generator runs. -/
theorem C9_zero_count_total :
    generateGenericSeatNumbers 0 = []
    ∧ generateCommonSeatPatterns 0 = []
    ∧ getBookingPreferences ⟨some "TestTrain", some "A1", some "0"⟩
        = Except.error positiveSeatsMsg :=
  ⟨rfl, rfl, rfl⟩

/-! ### Claim C6: password-fill input-method escalation -/

/-- The four input methods the login flow tries on the password field, in
source order: Method 1 `pressSequentially` (simulated keystrokes), Method 2
`fill` (direct value set), Method 3 per-character keyboard typing, Method 4
clipboard paste. -/
inductive InputMethod where
  | pressSequentially
  | fill
  | charByChar
  | clipboard
deriving DecidableEq

/-- The order in which the source tries the methods (Method 1 .. Method 4). -/
def methodOrder : List InputMethod :=
  [InputMethod.pressSequentially, InputMethod.fill, InputMethod.charByChar,
   InputMethod.clipboard]

/-- Embedding of the password-fill escalation of the UI login: `enter m` is
the value read back from the field (`inputValue`) after clearing it and
applying method `m`; each later method runs only while the value read back so
far has the wrong length. Returns the final read-back value and the methods
attempted, in order. -/
def fillPasswordField (enter : InputMethod → String) (password : String) :
    String × List InputMethod :=
  let v1 := enter InputMethod.pressSequentially
  if v1.length ≠ password.length then
    let v2 := enter InputMethod.fill
    if v2.length ≠ password.length then
      let v3 := enter InputMethod.charByChar
      if v3.length ≠ password.length then
        let v4 := enter InputMethod.clipboard
        (v4, [InputMethod.pressSequentially, InputMethod.fill, InputMethod.charByChar,
              InputMethod.clipboard])
      else (v3, [InputMethod.pressSequentially, InputMethod.fill, InputMethod.charByChar])
    else (v2, [InputMethod.pressSequentially, InputMethod.fill])
  else (v1, [InputMethod.pressSequentially])

/-- C6 counterexample: the claim says the escalation tries the direct value
set first, but the first method the code attempts is always the simulated
keystrokes (`pressSequentially`), shown here on a field that drops every
character of a one-character password. -/
theorem C6_first_method_counterexample :
    (fillPasswordField (fun _ => "") "x").2
      = [InputMethod.pressSequentially, InputMethod.fill, InputMethod.charByChar,
         InputMethod.clipboard]
    ∧ (fillPasswordField (fun _ => "") "x").2.head? = some InputMethod.pressSequentially
    ∧ InputMethod.pressSequentially ≠ InputMethod.fill := by
  refine ⟨rfl, rfl, by decide⟩

/-- C6 amended: the flow checks the read-back-length post-condition and
escalates through simulated keystrokes, then direct set, then per-character
keystrokes, then clipboard paste: it attempts exactly the failing front
segment of that order plus the first succeeding method (all four when every
method fails), and reports the value read back from the last method tried. -/
theorem C6_escalation_order (enter : InputMethod → String) (password : String) :
    (fillPasswordField enter password).2
      = methodOrder.takeWhile (fun m => (enter m).length != password.length)
        ++ (methodOrder.dropWhile (fun m => (enter m).length != password.length)).take 1
    ∧ (fillPasswordField enter password).1
      = ((fillPasswordField enter password).2.map enter).getLastD "" := by
  by_cases h1 : (enter InputMethod.pressSequentially).length = password.length
  · have hb1 : ((enter InputMethod.pressSequentially).length != password.length) = false := by
      simp [h1]
    simp [fillPasswordField, methodOrder, h1, hb1, List.takeWhile, List.dropWhile]
  · have hb1 : ((enter InputMethod.pressSequentially).length != password.length) = true := by
      simp [h1]
    by_cases h2 : (enter InputMethod.fill).length = password.length
    · have hb2 : ((enter InputMethod.fill).length != password.length) = false := by simp [h2]
      simp [fillPasswordField, methodOrder, h1, h2, hb1, hb2, List.takeWhile, List.dropWhile]
    · have hb2 : ((enter InputMethod.fill).length != password.length) = true := by simp [h2]
      by_cases h3 : (enter InputMethod.charByChar).length = password.length
      · have hb3 : ((enter InputMethod.charByChar).length != password.length) = false := by
          simp [h3]
        simp [fillPasswordField, methodOrder, h1, h2, h3, hb1, hb2, hb3,
          List.takeWhile, List.dropWhile]
      · have hb3 : ((enter InputMethod.charByChar).length != password.length) = true := by
          simp [h3]
        by_cases h4 : (enter InputMethod.clipboard).length = password.length
        · have hb4 : ((enter InputMethod.clipboard).length != password.length) = false := by
            simp [h4]
          simp [fillPasswordField, methodOrder, h1, h2, h3, hb1, hb2, hb3, hb4,
            List.takeWhile, List.dropWhile]
        · have hb4 : ((enter InputMethod.clipboard).length != password.length) = true := by
            simp [h4]
          simp [fillPasswordField, methodOrder, h1, h2, h3, hb1, hb2, hb3, hb4,
            List.takeWhile, List.dropWhile]

/-! ### Claim C7: failed booking initiation halts the run -/

/-- The stages the real-booking flow runs after booking initiation. -/
inductive BookingStage where
  | coachSelection
  | seatSelection
deriving DecidableEq

/-- Observable state of the search page as the real-booking test probes it:
visibility of the configured train heading and of its class booking button,
and the button counts of the fallback lookups. -/
structure SearchPage where
  trainHeadingVisible : Bool
  classBookButtonVisible : Bool
  allBookingButtonCount : Nat
  configuredClassButtonCount : Nat
  snigdhaCount : Nat
  acSCount : Nat
  shovanCount : Nat
  firstSeatCount : Nat
deriving DecidableEq

def noOptionsMsg : String :=
  "No booking options found for any class. Check date and route availability."

def couldNotInitiateMsg : String := "Could not initiate booking"

/-- Embedding of step 4 of the real-booking test (finding and clicking a
booking button): either the thrown error of the detailed-analysis branch, or
the resulting value of `bookingInitiated`. -/
def initiateBooking (p : SearchPage) : Except String Bool :=
  if p.trainHeadingVisible then
    if p.classBookButtonVisible then Except.ok true else Except.ok false
  else if p.allBookingButtonCount > 0 then Except.ok true
  else if p.configuredClassButtonCount > 0 then Except.ok true
  else if p.snigdhaCount > 0 || p.acSCount > 0 || p.shovanCount > 0
      || p.firstSeatCount > 0 then Except.ok true
  else Except.error noOptionsMsg

/-- Embedding of the control flow after step 4 (source: throw `Could not
initiate booking` when `bookingInitiated` is still false, otherwise run
`handleCoachSelection` then `handleSeatSelection`): returns the outcome and
the later stages invoked. -/
def realBookingRun (p : SearchPage) : Except String Unit × List BookingStage :=
  match initiateBooking p with
  | Except.error e => (Except.error e, [])
  | Except.ok initiated =>
    if !initiated then (Except.error couldNotInitiateMsg, [])
    else (Except.ok (), [BookingStage.coachSelection, BookingStage.seatSelection])

/-- C7. When booking initiation fails with `bookingInitiated` still false, the
run ends with the failure naming the initiation stage, and neither coach
selection nor seat selection is ever attempted. -/
theorem C7_initiation_failure_halts (p : SearchPage)
    (h : initiateBooking p = Except.ok false) :
    realBookingRun p = (Except.error couldNotInitiateMsg, [])
    ∧ BookingStage.coachSelection ∉ (realBookingRun p).2
    ∧ BookingStage.seatSelection ∉ (realBookingRun p).2 := by
  unfold realBookingRun
  rw [h]
  simp

/-- Witness for C7: the configured train heading is visible but its class
booking button is not, so no booking button is clicked. -/
theorem C7_initiation_failure_halts_witness :
    initiateBooking ⟨true, false, 0, 0, 0, 0, 0, 0⟩ = Except.ok false
    ∧ (realBookingRun ⟨true, false, 0, 0, 0, 0, 0, 0⟩ = (Except.error couldNotInitiateMsg, [])
      ∧ BookingStage.coachSelection ∉ (realBookingRun ⟨true, false, 0, 0, 0, 0, 0, 0⟩).2
      ∧ BookingStage.seatSelection ∉ (realBookingRun ⟨true, false, 0, 0, 0, 0, 0, 0⟩).2) :=
  ⟨rfl, C7_initiation_failure_halts _ rfl⟩

/-! ### Claim C8: OTP success polling -/

/-- Outcome of an OTP wait loop: a success indicator seen at a given elapsed
time in milliseconds, the OTP page left at a given elapsed time (payment loop
only), or the maximum wait reached. -/
inductive OtpWaitOutcome where
  | success (elapsedMs : Nat)
  | proceeded (elapsedMs : Nat)
  | timeout
deriving DecidableEq

/-- Embedding of the wait loop of `handleSeatSelection` (poll every 2 seconds
while the elapsed time is below `maxWait`): at poll `k` the elapsed time is
`k * 2000` ms; `success k` says whether a success indicator is visible then.
The fuel bounds the recursion and is always chosen large enough that the
elapsed-time check fires first. -/
def seatOtpWaitAux (success : Nat → Bool) (maxWait : Nat) : Nat → Nat → OtpWaitOutcome
  | _, 0 => OtpWaitOutcome.timeout
  | k, fuel + 1 =>
    if k * 2000 < maxWait then
      if success k then OtpWaitOutcome.success (k * 2000)
      else seatOtpWaitAux success maxWait (k + 1) fuel
    else OtpWaitOutcome.timeout

/-- The `handleSeatSelection` OTP wait: maximum wait `10 * 60 * 1000` ms. -/
def seatSelectionOtpWait (success : Nat → Bool) : OtpWaitOutcome :=
  seatOtpWaitAux success 600000 0 301

/-- Embedding of the wait loop of `handlePaymentAndOTP` (maximum wait
`5 * 60 * 1000` ms): each poll first checks whether the page has left the OTP
screen (`otpGone`, the URL/field check), then the success indicators. -/
def paymentOtpWaitAux (otpGone success : Nat → Bool) (maxWait : Nat) :
    Nat → Nat → OtpWaitOutcome
  | _, 0 => OtpWaitOutcome.timeout
  | k, fuel + 1 =>
    if k * 2000 < maxWait then
      if otpGone k then OtpWaitOutcome.proceeded (k * 2000)
      else if success k then OtpWaitOutcome.success (k * 2000)
      else paymentOtpWaitAux otpGone success maxWait (k + 1) fuel
    else OtpWaitOutcome.timeout

/-- The `handlePaymentAndOTP` OTP wait. -/
def paymentOtpWait (otpGone success : Nat → Bool) : OtpWaitOutcome :=
  paymentOtpWaitAux otpGone success 300000 0 151

theorem seatOtpWaitAux_success (success : Nat → Bool) (maxWait : Nat) :
    ∀ (N k fuel : Nat), (∀ j < N, success (k + j) = false) → success (k + N) = true →
      (k + N) * 2000 < maxWait → N < fuel →
      seatOtpWaitAux success maxWait k fuel = OtpWaitOutcome.success ((k + N) * 2000) := by
  intro N
  induction N with
  | zero =>
    intro k fuel h0 hk hlt hfuel
    cases fuel with
    | zero => omega
    | succ fuel =>
      simp only [seatOtpWaitAux]
      rw [if_pos (by omega : k * 2000 < maxWait), if_pos (by simpa using hk)]
      simp
  | succ N ih =>
    intro k fuel h0 hk hlt hfuel
    cases fuel with
    | zero => omega
    | succ fuel =>
      have hkf : success k = false := by simpa using h0 0 (Nat.succ_pos N)
      simp only [seatOtpWaitAux]
      rw [if_pos (by omega : k * 2000 < maxWait), if_neg (by simp [hkf])]
      have h0' : ∀ j < N, success (k + 1 + j) = false := by
        intro j hj
        have h := h0 (j + 1) (by omega)
        rwa [show k + (j + 1) = k + 1 + j by omega] at h
      have hk' : success (k + 1 + N) = true := by
        rwa [show k + 1 + N = k + (N + 1) by omega]
      have hlt' : (k + 1 + N) * 2000 < maxWait := by
        rwa [show k + 1 + N = k + (N + 1) by omega]
      have := ih (k + 1) fuel h0' hk' hlt' (by omega)
      rwa [show k + 1 + N = k + (N + 1) by omega] at this

theorem seatOtpWaitAux_timeout (success : Nat → Bool) (maxWait : Nat)
    (hnone : ∀ k, success k = false) :
    ∀ (fuel k : Nat), seatOtpWaitAux success maxWait k fuel = OtpWaitOutcome.timeout := by
  intro fuel
  induction fuel with
  | zero => intro k; rfl
  | succ fuel ih =>
    intro k
    simp only [seatOtpWaitAux]
    by_cases h : k * 2000 < maxWait
    · rw [if_pos h, if_neg (by simp [hnone k])]
      exact ih (k + 1)
    · rw [if_neg h]

theorem paymentOtpWaitAux_success (success : Nat → Bool) (maxWait : Nat) :
    ∀ (N k fuel : Nat), (∀ j < N, success (k + j) = false) → success (k + N) = true →
      (k + N) * 2000 < maxWait → N < fuel →
      paymentOtpWaitAux (fun _ => false) success maxWait k fuel
        = OtpWaitOutcome.success ((k + N) * 2000) := by
  intro N
  induction N with
  | zero =>
    intro k fuel h0 hk hlt hfuel
    cases fuel with
    | zero => omega
    | succ fuel =>
      simp only [paymentOtpWaitAux]
      rw [if_pos (by omega : k * 2000 < maxWait), if_neg (by simp),
        if_pos (by simpa using hk)]
      simp
  | succ N ih =>
    intro k fuel h0 hk hlt hfuel
    cases fuel with
    | zero => omega
    | succ fuel =>
      have hkf : success k = false := by simpa using h0 0 (Nat.succ_pos N)
      simp only [paymentOtpWaitAux]
      rw [if_pos (by omega : k * 2000 < maxWait), if_neg (by simp),
        if_neg (by simp [hkf])]
      have h0' : ∀ j < N, success (k + 1 + j) = false := by
        intro j hj
        have h := h0 (j + 1) (by omega)
        rwa [show k + (j + 1) = k + 1 + j by omega] at h
      have hk' : success (k + 1 + N) = true := by
        rwa [show k + 1 + N = k + (N + 1) by omega]
      have hlt' : (k + 1 + N) * 2000 < maxWait := by
        rwa [show k + 1 + N = k + (N + 1) by omega]
      have := ih (k + 1) fuel h0' hk' hlt' (by omega)
      rwa [show k + 1 + N = k + (N + 1) by omega] at this

theorem paymentOtpWaitAux_timeout (success : Nat → Bool) (maxWait : Nat)
    (hnone : ∀ k, success k = false) :
    ∀ (fuel k : Nat),
      paymentOtpWaitAux (fun _ => false) success maxWait k fuel = OtpWaitOutcome.timeout := by
  intro fuel
  induction fuel with
  | zero => intro k; rfl
  | succ fuel ih =>
    intro k
    simp only [paymentOtpWaitAux]
    by_cases h : k * 2000 < maxWait
    · rw [if_pos h, if_neg (by simp), if_neg (by simp [hnone k])]
      exact ih (k + 1)
    · rw [if_neg h]

/-- C8. If the success indicator first becomes visible at poll `N` and
`N * 2000` ms is below the maximum wait (10 minutes in `handleSeatSelection`,
5 minutes in `handlePaymentAndOTP` with the OTP page still shown), the loop
returns success at elapsed time `N * 2000` rather than at the maximum wait;
and with no signal at all, both loops stop with a timeout at the maximum
wait. -/
theorem C8_otp_poll_timing (success : Nat → Bool) (N : Nat)
    (hbefore : ∀ k < N, success k = false) (hat : success N = true) :
    (N * 2000 < 600000 → seatSelectionOtpWait success = OtpWaitOutcome.success (N * 2000))
    ∧ (N * 2000 < 300000 →
        paymentOtpWait (fun _ => false) success = OtpWaitOutcome.success (N * 2000))
    ∧ (∀ f : Nat → Bool, (∀ k, f k = false) →
        seatSelectionOtpWait f = OtpWaitOutcome.timeout
        ∧ paymentOtpWait (fun _ => false) f = OtpWaitOutcome.timeout) := by
  refine ⟨?_, ?_, ?_⟩
  · intro hlt
    have h := seatOtpWaitAux_success success 600000 N 0 301
      (by simpa using hbefore) (by simpa using hat) (by simpa using hlt) (by omega)
    simpa [seatSelectionOtpWait] using h
  · intro hlt
    have h := paymentOtpWaitAux_success success 300000 N 0 151
      (by simpa using hbefore) (by simpa using hat) (by simpa using hlt) (by omega)
    simpa [paymentOtpWait] using h
  · intro f hf
    exact ⟨seatOtpWaitAux_timeout f 600000 hf 301 0, paymentOtpWaitAux_timeout f 300000 hf 151 0⟩

/-- Witness for C8: the success indicator appears at poll 3 (6 seconds). -/
theorem C8_otp_poll_timing_witness :
    (∀ k < 3, (fun k => decide (k = 3)) k = false) ∧ (fun k => decide (k = 3)) 3 = true
    ∧ ((3 * 2000 < 600000 →
          seatSelectionOtpWait (fun k => decide (k = 3)) = OtpWaitOutcome.success (3 * 2000))
      ∧ (3 * 2000 < 300000 →
          paymentOtpWait (fun _ => false) (fun k => decide (k = 3))
            = OtpWaitOutcome.success (3 * 2000))
      ∧ (∀ f : Nat → Bool, (∀ k, f k = false) →
          seatSelectionOtpWait f = OtpWaitOutcome.timeout
          ∧ paymentOtpWait (fun _ => false) f = OtpWaitOutcome.timeout)) :=
  ⟨by decide, by decide,
    C8_otp_poll_timing (fun k => decide (k = 3)) 3 (by decide) (by decide)⟩
